import Mathlib

/-!
Verification development for the Alfred chat-assistant repository
(iterations v1..v5 of a Flask application).  The definitions below are a
shallow embedding of the route handlers and helper functions of
`src/v4/app.py` and `src/v5/app.py` (the iterations the claims cite);
external services (bcrypt, the generative model, Firestore, speech
services) are passed in as explicit function parameters or outcome
values, and Firestore state is explicit (an optional document for the
per-user profile, a list of message documents for the history).
-/

namespace Alfred

/-- One persisted message document in the per-user `messages`
subcollection: owning username, user text, model text, and the
server-assigned timestamp. -/
structure Turn where
  user : String
  user_message : String
  ai_response : String
  timestamp : Nat
  deriving DecidableEq

/-- One entry of the turn list sent to the generative model:
a role (`"user"` or `"model"`) and its text. -/
structure Entry where
  role : String
  text : String
  deriving DecidableEq

/-- A document of the Firestore `users` collection, as a partial record:
`none` models an absent key, `some ""` a key present with empty value
(Python dict-with-optional-keys semantics). -/
structure Doc where
  agent_persona : Option String := none
  agent_goal : Option String := none
  special_instructions : Option String := none
  user_display_name : Option String := none
  hashed_password : Option String := none
  created_at : Option Nat := none
  last_updated_at : Option Nat := none
  deriving DecidableEq

/-- The signed-cookie session: authenticated flag, username, admin flag. -/
structure Session where
  authenticated : Bool := false
  username : Option String := none
  is_admin : Bool := false
  deriving DecidableEq

/-- Python truthiness of an optional string: `None` and `""` are falsy. -/
def truthy (s : Option String) : Bool := s.getD "" != ""

def defaultPersona : String := "You are a helpful and friendly AI assistant."

def defaultGoal : String := "Answer questions and engage in natural conversation."

def invalidCredMsg : String := "Invalid username or password."

/-- The default profile document written by the self-healing read
(`get_user_profile_data`, v4/v5), including the `created_at` server
timestamp. -/
def defaultProfile (username : String) (now : Nat) : Doc :=
  { agent_persona := some defaultPersona
    agent_goal := some defaultGoal
    special_instructions := some ""
    user_display_name := some username
    created_at := some now }

/-- `doc.pop("hashed_password"); doc.pop("last_updated_at"); doc.pop("created_at")`
from `get_user_profile_data`. -/
def stripSensitive (d : Doc) : Doc :=
  { d with hashed_password := none, last_updated_at := none, created_at := none }

/-- Firestore `set(data, merge=True)`: keys present in `data` overwrite,
keys absent in `data` keep the old document's value; on an absent
document it just writes `data`. -/
def setMerge (old : Option Doc) (data : Doc) : Doc :=
  match old with
  | none => data
  | some d =>
    { agent_persona := data.agent_persona <|> d.agent_persona
      agent_goal := data.agent_goal <|> d.agent_goal
      special_instructions := data.special_instructions <|> d.special_instructions
      user_display_name := data.user_display_name <|> d.user_display_name
      hashed_password := data.hashed_password <|> d.hashed_password
      created_at := data.created_at <|> d.created_at
      last_updated_at := data.last_updated_at <|> d.last_updated_at }

/-- `get_user_profile_data(username)` (v4/v5): if the `users` document
exists, return it with `hashed_password`, `last_updated_at` and
`created_at` removed; otherwise write a default document (merge
semantics) and return that default dict as built, `created_at`
included.  Returns (returned profile, new stored document). -/
def get_user_profile_data (username : String) (store : Option Doc) (now : Nat) :
    Doc × Option Doc :=
  match store with
  | some d => (stripSensitive d, some d)
  | none =>
    let dflt := defaultProfile username now
    (dflt, some (setMerge none dflt))

/-- The `system_instruction_parts` list built in `chat` (v4/v5): persona
(dict-get default), the fixed name sentence, goal (dict-get default),
the special instructions appended only when truthy, and the
user-naming sentence (display name with dict-get default). -/
def systemInstructionParts (p : Doc) (username : String) : List String :=
  let base := [p.agent_persona.getD defaultPersona,
               "Your name is Alfred.",
               p.agent_goal.getD defaultGoal]
  let base := if truthy p.special_instructions
              then base ++ [p.special_instructions.getD ""]
              else base
  base ++ ["The user you are interacting with is named " ++
           p.user_display_name.getD username ++ "."]

/-- `" ".join(part for part in system_instruction_parts if part).strip()`. -/
def systemInstruction (p : Doc) (username : String) : String :=
  (" ".intercalate ((systemInstructionParts p username).filter (fun part => part != ""))).trim

/-- The system instruction as the spec describes it: the five parts in
fixed order — persona or default, the fixed assistant-name sentence,
goal or default, the special instructions, the user-naming sentence —
with empty parts omitted, joined by single spaces, trimmed. -/
def specSystemInstruction (p : Doc) (username : String) : String :=
  (" ".intercalate
    (([p.agent_persona.getD defaultPersona,
       "Your name is Alfred.",
       p.agent_goal.getD defaultGoal,
       p.special_instructions.getD "",
       "The user you are interacting with is named " ++
         p.user_display_name.getD username ++ "."]).filter
      (fun part => part != ""))).trim

/-- Comparison used for the Firestore query
`order_by("timestamp", direction=DESCENDING)`: `a` may come before `b`
when `b`'s timestamp is at most `a`'s. -/
def tsGe (a b : Turn) : Prop := b.timestamp ≤ a.timestamp

/-- Ascending timestamp comparison (chronological order). -/
def tsLe (a b : Turn) : Prop := a.timestamp ≤ b.timestamp

instance : DecidableRel tsGe := fun _ _ => Nat.decLe _ _

instance : DecidableRel tsLe := fun _ _ => Nat.decLe _ _

instance : IsTotal Turn tsGe := ⟨fun a b => Nat.le_total b.timestamp a.timestamp⟩

instance : IsTrans Turn tsGe := ⟨fun _ _ _ h1 h2 => Nat.le_trans h2 h1⟩

instance : IsTotal Turn tsLe := ⟨fun a b => Nat.le_total a.timestamp b.timestamp⟩

instance : IsTrans Turn tsLe := ⟨fun _ _ _ h1 h2 => Nat.le_trans h1 h2⟩

/-- The stored history sorted newest-first, as returned by the Firestore
query ordering. -/
def sortDesc (hist : List Turn) : List Turn := List.insertionSort tsGe hist

/-- Oldest-first sort, used to speak about the "k-th oldest" turn. -/
def sortAsc (hist : List Turn) : List Turn := List.insertionSort tsLe hist

/-- `order_by("timestamp", DESCENDING).limit(k).stream()`: the `k` most
recent documents, newest first. -/
def fetchRecent (k : Nat) (hist : List Turn) : List Turn := (sortDesc hist).take k

/-- `reversed(list(...stream()))` over the descending fetch: the `k`
most recent turns in chronological order, as used by both the chat-page
display read and the model-context read. -/
def historyRead (k : Nat) (hist : List Turn) : List Turn := (fetchRecent k hist).reverse

/-- The (k+1)-th oldest turn of the stored history (`k` is 0-based). -/
def nthOldest (k : Nat) (hist : List Turn) : Option Turn := (sortAsc hist)[k]?

/-- The (k+1)-th most recent turn of the stored history (`k` is 0-based). -/
def nthNewest (k : Nat) (hist : List Turn) : Option Turn := (sortDesc hist)[k]?

/-- The two possible entries a stored turn contributes to the model
conversation: a user entry when the stored user text is non-empty,
then a model entry when the stored response text is non-empty. -/
def turnEntries (t : Turn) : List Entry :=
  (if t.user_message != "" then [⟨"user", t.user_message⟩] else []) ++
  (if t.ai_response != "" then [⟨"model", t.ai_response⟩] else [])

/-- The `for doc in reversed(...)` loop of `chat` that grows
`current_conversation`: for each turn append the user entry if the user
text is truthy, then the model entry if the response text is truthy. -/
def flattenLoop : List Turn → List Entry → List Entry
  | [], acc => acc
  | t :: rest, acc =>
    let acc1 := if t.user_message != "" then acc ++ [⟨"user", t.user_message⟩] else acc
    let acc2 := if t.ai_response != "" then acc1 ++ [⟨"model", t.ai_response⟩] else acc1
    flattenLoop rest acc2

/-- `current_conversation` as `chat` builds it: the flattening loop over
the reversed descending fetch of the `k` most recent turns, then the
incoming user message appended as the final user entry. -/
def buildConversation (k : Nat) (hist : List Turn) (msg : String) : List Entry :=
  flattenLoop (historyRead k hist) [] ++ [⟨"user", msg⟩]

/-- The turn list as the spec describes it: the most recent `k` turns
read in descending time order, reversed to ascending, each flattened to
its (at most two) non-empty entries, and the new message appended as
the final entry. -/
def specConversation (k : Nat) (hist : List Turn) (msg : String) : List Entry :=
  (((sortDesc hist).take k).reverse.map turnEntries).flatten ++ [⟨"user", msg⟩]

/-- Outcome of the login route: a redirect to the chat page or a render
of the login page, each with an optional flash message. -/
inductive LoginView
  | redirectChat (flash : Option String)
  | loginPage (flash : Option String)
  deriving DecidableEq

/-- The fixed administrator allow-list of v5. -/
def ADMIN_USERNAMES : List String := ["admin"]

/-- `login` (v5, identical to v4 except that v4 never sets the admin
flag): an already-authenticated session redirects; otherwise, on POST,
fetch the `users` document; if it exists with a `hashed_password` key
and `bcrypt.checkpw` succeeds, set the session's authenticated flag and
username (and the admin flag when the username is in
`ADMIN_USERNAMES`) and redirect; in every other case flash the one
generic invalid-credentials message and re-render the login page with
the session untouched.  `checkpw` abstracts `bcrypt.checkpw`, `store`
the `users` collection. -/
def login (checkpw : String → String → Bool) (store : String → Option Doc)
    (s : Session) (isPost : Bool) (username password : String) : LoginView × Session :=
  if s.authenticated then (.redirectChat none, s)
  else if isPost then
    match store username with
    | some d =>
      match d.hashed_password with
      | some h =>
        if checkpw password h then
          let s1 := { s with authenticated := true, username := some username }
          let s2 := if username ∈ ADMIN_USERNAMES then { s1 with is_admin := true } else s1
          (.redirectChat (some "Logged in successfully!"), s2)
        else (.loginPage (some invalidCredMsg), s)
      | none => (.loginPage (some invalidCredMsg), s)
    | none => (.loginPage (some invalidCredMsg), s)
  else (.loginPage none, s)

/-- JSON outcome of the POST `/chat` route: the success body
`{"response": ...}` or an error body with its HTTP status. -/
inductive ChatResult
  | ok (response : String)
  | err (status : Nat) (message : String)
  deriving DecidableEq

/-- POST `/chat` (v4; v5 is identical except for the 503 message text).
Parameters abstract the externals: `authed` is the session flag,
`clientOk` whether the Gemini client initialized, `userDoc` the
caller's `users` document, `hist` the caller's stored message turns,
`body` the optional `"message"` field of the JSON body, `gen` the model
call (system instruction and turn list to response text, or the raised
exception's text), `dbAdd` the Firestore write outcome (`none` =
success, `some e` = exception text `e`).  Returns the JSON result, the
new stored history, and the new `users` document (the profile read
self-heals before the model call). -/
def chat (authed : Bool) (clientOk : Bool) (username : String)
    (userDoc : Option Doc) (now : Nat) (hist : List Turn) (body : Option String)
    (gen : String → List Entry → Except String String)
    (dbAdd : Option String) : ChatResult × List Turn × Option Doc :=
  if ¬ authed then (.err 401 "Unauthorized", hist, userDoc)
  else
    let user_input := body.getD ""
    if ¬ clientOk then
      (.err 503 "AI service not available. Please check server logs.", hist, userDoc)
    else
      let pd := get_user_profile_data username userDoc now
      let sys := systemInstruction pd.1 username
      let conv := buildConversation 10 hist user_input
      match gen sys conv with
      | .error e => (.err 500 e, hist, pd.2)
      | .ok ai =>
        match dbAdd with
        | some e => (.err 500 e, hist, pd.2)
        | none => (.ok ai, hist ++ [⟨username, user_input, ai, now⟩], pd.2)

/-- The `while True` loop of `clear_history` (v3/v4/v5): fetch up to 50
documents, delete them as one batch, stop when a fetch returns no
documents or fewer than 50, else fetch again.  Returns the final
`deleted_count` and the remaining history. -/
def clearLoop (hist : List Turn) (deleted : Nat) : Nat × List Turn :=
  if (hist.take 50).length = 0 then (deleted, hist)
  else if (hist.take 50).length < 50 then
    (deleted + (hist.take 50).length, hist.drop 50)
  else clearLoop (hist.drop 50) (deleted + (hist.take 50).length)
termination_by hist.length
decreasing_by
  have h : (hist.take 50).length = min 50 hist.length := by simp
  simp only [List.length_drop]
  omega

/-- JSON outcome of POST `/clear-history`: the success body
`{"success": true, "deleted_count": ...}` or an error body. -/
inductive ClearResult
  | success (deleted_count : Nat)
  | err (status : Nat) (message : String)
  deriving DecidableEq

/-- POST `/clear-history` (v4/v5): unauthorized without a session;
otherwise run the batched deletion loop. -/
def clear_history (authed : Bool) (hist : List Turn) : ClearResult × List Turn :=
  if ¬ authed then (.err 401 "Unauthorized", hist)
  else
    let r := clearLoop hist 0
    (.success r.1, r.2)

/-- The fixed allow-list of creatable usernames in v4. -/
def ALLOWED_USERNAMES_V4 : List String := ["change this"]

/-- The fixed allow-list of creatable usernames in v5. -/
def ALLOWED_USERNAMES_V5 : List String := ["add here"]

/-- The Firestore `users` collection as an association list from
username to document. -/
abbrev Store := List (String × Doc)

def lookupUser (store : Store) (u : String) : Option Doc :=
  (store.find? (fun p => p.1 == u)).map (fun p => p.2)

def setUser (store : Store) (u : String) (d : Doc) : Store :=
  if (store.find? (fun p => p.1 == u)).isSome
  then store.map (fun p => if p.1 == u then (u, d) else p)
  else store ++ [(u, d)]

/-- The `for key, value in default_profile_parts.items(): if key not in
profile_to_set` loop of `create_or_update_user`: fill only the missing
profile keys with their defaults. -/
def fillDefaults (d : Doc) (username : String) : Doc :=
  { d with
    agent_persona := some (d.agent_persona.getD defaultPersona)
    agent_goal := some (d.agent_goal.getD defaultGoal)
    special_instructions := some (d.special_instructions.getD "")
    user_display_name := some (d.user_display_name.getD username) }

/-- `create_or_update_user` (v4/v5): refuse usernames outside the given
allow-list without touching the store; otherwise hash the password
(`hashpw` abstracts `bcrypt.hashpw` with a fresh salt), merge the
defaults into the existing document's missing keys, set
`hashed_password` and `last_updated_at`, set `created_at` only when
absent, and write the document.  Returns the (success, message) pair
and the new store. -/
def create_or_update_user (allowed : List String) (hashpw : String → String)
    (now : Nat) (store : Store) (username password : String) :
    (Bool × String) × Store :=
  if username ∉ allowed then ((false, "Unauthorized username."), store)
  else
    let hashed := hashpw password
    let base := (lookupUser store username).getD {}
    let d1 := fillDefaults base username
    let d2 := { d1 with hashed_password := some hashed, last_updated_at := some now }
    let d3 := if d2.created_at = none then { d2 with created_at := some now } else d2
    ((true, "User created/updated successfully."), setUser store username d3)

/-- Outcome of the `/admin/create-user` route: a redirect away, or the
admin page listing the user documents, with an optional flash. -/
inductive AdminView
  | redirectChat (flash : String)
  | page (users : List Doc) (flash : Option String)
  deriving DecidableEq

/-- `data.pop("hashed_password", None)` applied to each listed user. -/
def popHashed (d : Doc) : Doc := { d with hashed_password := none }

/-- `admin_create_user` (v5): a session without the admin flag is
redirected away with no store access; otherwise a POST with truthy
username and password runs `create_or_update_user` against the v5
allow-list, and the page lists every user document with
`hashed_password` removed. -/
def admin_create_user_v5 (hashpw : String → String) (now : Nat) (s : Session)
    (isPost : Bool) (username password : Option String) (store : Store) :
    AdminView × Store :=
  if ¬ s.is_admin then
    (.redirectChat "You do not have permission to access this page.", store)
  else
    let step :=
      if isPost then
        if truthy username && truthy password then
          let r := create_or_update_user ALLOWED_USERNAMES_V5 hashpw now store
                     (username.getD "") (password.getD "")
          (some r.1.2, r.2)
        else (some "Username and password are required.", store)
      else (none, store)
    (.page (step.2.map (fun p => popHashed p.2)) step.1, step.2)

/-- `admin_create_user` (v4): the same body as v5 but with no admin
check at all — the session is ignored and every request is served —
and the v4 allow-list. -/
def admin_create_user_v4 (hashpw : String → String) (now : Nat) (_s : Session)
    (isPost : Bool) (username password : Option String) (store : Store) :
    AdminView × Store :=
  let step :=
    if isPost then
      if truthy username && truthy password then
        let r := create_or_update_user ALLOWED_USERNAMES_V4 hashpw now store
                   (username.getD "") (password.getD "")
        (some r.1.2, r.2)
      else (some "Username and password are required.", store)
    else (none, store)
  (.page (step.2.map (fun p => popHashed p.2)) step.1, step.2)

/-- Outcome of the speech-to-text stage: a raised exception, an empty
result set, or a transcript. -/
inductive SttOutcome
  | fail (e : String)
  | noResults
  | ok (transcript : String)
  deriving DecidableEq

/-- JSON outcome of POST `/transcribe_and_chat`: the full success body
(transcript, response text, base64 audio) or an error body. -/
inductive VoiceResult
  | ok (user_transcript ai_response_text ai_response_audio : String)
  | err (status : Nat) (message : String)
  deriving DecidableEq

/-- POST `/transcribe_and_chat` (v5): session check, audio-field check,
then the three try blocks in order — speech-to-text (`stt`), the model
call on the transcript as the sole conversational turn plus the
Firestore write (`gen`, `dbAdd`), and text-to-speech (`tts`, returning
the base64-encoded audio).  Each failing stage returns its own error
body at once; only a fully successful run returns the triple.  Returns
the JSON result, the new stored history, and the new `users`
document. -/
def transcribe_and_chat (authed : Bool) (username : String) (audioPresent : Bool)
    (stt : SttOutcome) (userDoc : Option Doc) (now : Nat) (hist : List Turn)
    (gen : String → List Entry → Except String String)
    (dbAdd : Option String)
    (tts : String → Except String String) : VoiceResult × List Turn × Option Doc :=
  if ¬ authed then (.err 401 "Unauthorized", hist, userDoc)
  else if ¬ audioPresent then (.err 400 "No audio file found", hist, userDoc)
  else
    match stt with
    | .fail e => (.err 500 ("Speech-to-Text failed: " ++ e), hist, userDoc)
    | .noResults => (.err 400 "Could not understand audio", hist, userDoc)
    | .ok transcript =>
      let pd := get_user_profile_data username userDoc now
      let sys := systemInstruction pd.1 username
      match gen sys [⟨"user", transcript⟩] with
      | .error e => (.err 500 ("AI chat failed: " ++ e), hist, pd.2)
      | .ok ai =>
        match dbAdd with
        | some e => (.err 500 ("AI chat failed: " ++ e), hist, pd.2)
        | none =>
          let hist1 := hist ++ [⟨username, transcript, ai, now⟩]
          match tts ai with
          | .error e => (.err 500 ("Text-to-Speech failed: " ++ e), hist1, pd.2)
          | .ok audio => (.ok transcript ai audio, hist1, pd.2)

/-- Concrete model-call outcome used to evaluate the theorems: the
model always answers `"yo"`. -/
def genOkW : String → List Entry → Except String String := fun _ _ => .ok "yo"

/-- Concrete model-call outcome that always raises. -/
def genErrW : String → List Entry → Except String String := fun _ _ => .error "boom"

/-- Concrete text-to-speech outcome: always returns audio `"AU"`. -/
def ttsOkW : String → Except String String := fun _ => .ok "AU"

/-- Concrete stand-in for `bcrypt.hashpw`. -/
def hpwW : String → String := fun p => "h:" ++ p

/-- Concrete stand-in for `bcrypt.checkpw`, matching `hpwW`. -/
def cpwW : String → String → Bool := fun p h => h == "h:" ++ p

/-- Concrete credential store holding one user `"admin"`. -/
def stW : String → Option Doc :=
  fun u => if u == "admin" then some { hashed_password := some "h:pw" } else none

/-- Concrete stored turns with distinct timestamps. -/
def turnA : Turn := ⟨"u", "a", "ra", 1⟩

def turnB : Turn := ⟨"u", "b", "rb", 2⟩

def turnC : Turn := ⟨"u", "c", "rc", 3⟩

/-- A concrete three-turn history. -/
def histCE : List Turn := [turnA, turnB, turnC]

/-! ## Helper lemmas -/

/-- The imperative conversation-building loop equals the declarative
flattening of each turn's entries, appended after the accumulator. -/
theorem flattenLoop_eq_flatten (l : List Turn) (acc : List Entry) :
    flattenLoop l acc = acc ++ (l.map turnEntries).flatten := by
  induction l generalizing acc with
  | nil => simp [flattenLoop]
  | cons t rest ih =>
    by_cases h1 : t.user_message != "" <;> by_cases h2 : t.ai_response != "" <;>
      simp [flattenLoop, turnEntries, h1, h2, ih, List.append_assoc]

/-- Filtering out empty strings ignores an empty element in the middle
of the list. -/
theorem filter_drop_empty (l1 l2 : List String) :
    List.filter (fun part => part != "") (l1 ++ "" :: l2)
      = List.filter (fun part => part != "") (l1 ++ l2) := by
  simp [List.filter_append]

/-- The batched deletion loop always terminates with an empty history
and a deleted count equal to the initial length. -/
theorem clearLoop_spec : ∀ (n : Nat) (hist : List Turn) (deleted : Nat), hist.length ≤ n →
    clearLoop hist deleted = (deleted + hist.length, []) := by
  intro n
  induction n with
  | zero =>
    intro hist d h
    have hnil : hist = [] := List.length_eq_zero.mp (Nat.le_zero.mp h)
    subst hnil
    rw [clearLoop]
    simp
  | succ n ih =>
    intro hist d h
    rw [clearLoop]
    have htake : (hist.take 50).length = min 50 hist.length := by simp
    by_cases h0 : (hist.take 50).length = 0
    · rw [if_pos h0]
      have hlen : hist.length = 0 := by omega
      have hnil := List.length_eq_zero.mp hlen
      subst hnil; simp
    · rw [if_neg h0]
      by_cases h1 : (hist.take 50).length < 50
      · rw [if_pos h1]
        have hd : hist.drop 50 = [] := List.drop_eq_nil_of_le (by omega)
        have hct : (hist.take 50).length = hist.length := by omega
        rw [hd, hct]
      · rw [if_neg h1]
        have hct : (hist.take 50).length = 50 := by omega
        have hrec := ih (hist.drop 50) (d + (hist.take 50).length)
          (by simp only [List.length_drop]; omega)
        rw [hrec, hct]
        simp only [List.length_drop]
        have : 50 ≤ hist.length := by omega
        congr 1
        omega

/-! ## Claim theorems -/

/-- Claim C1: for every login attempt from an unauthenticated session,
if the submitted username has no stored password hash (absent document
or absent `hashed_password` key) or the `bcrypt.checkpw` comparison
fails, the response is the one generic invalid-credentials page in both
cases, and the session is left entirely unchanged (authenticated flag
and username not set); for every pair matching the stored hash, login
redirects to the chat page and establishes a session whose
authenticated flag is set and whose username is the submitted
username. -/
theorem login_generic_failure_and_success (checkpw : String → String → Bool)
    (store : String → Option Doc) (s : Session) (u p : String)
    (hs : s.authenticated = false) :
    (((store u).bind Doc.hashed_password = none ∨
        (∃ h, (store u).bind Doc.hashed_password = some h ∧ checkpw p h = false)) →
      login checkpw store s true u p = (.loginPage (some invalidCredMsg), s)) ∧
    (∀ h, (store u).bind Doc.hashed_password = some h → checkpw p h = true →
      (login checkpw store s true u p).1 = .redirectChat (some "Logged in successfully!") ∧
      (login checkpw store s true u p).2.authenticated = true ∧
      (login checkpw store s true u p).2.username = some u) := by
  unfold login
  rcases hst : store u with _ | d
  · simp [hs, hst]
  · rcases hhp : d.hashed_password with _ | hash
    · simp [hs, hst, hhp]
    · by_cases hck : checkpw p hash = true
      · constructor
        · rintro (hnone | ⟨h, hsome, hfalse⟩)
          · simp [hst, hhp] at hnone
          · simp [hst, hhp] at hsome
            subst hsome
            rw [hck] at hfalse
            exact absurd hfalse (by simp)
        · intro h hsome htrue
          by_cases hadm : u ∈ ADMIN_USERNAMES <;>
            simp [hs, hst, hhp, hck, hadm]
      · constructor
        · intro _
          simp [hs, hst, hhp, hck]
        · intro h hsome htrue
          simp [hst, hhp] at hsome
          subst hsome
          rw [htrue] at hck
          exact absurd rfl hck

/-- Witness for C1: with a concrete one-user store, the matching pair
logs in and sets the session username, and an unknown username gets the
generic invalid-credentials page with the session unchanged. -/
theorem login_generic_failure_and_success_witness :
    (login cpwW stW {} true "admin" "pw").2.username = some "admin" ∧
    login cpwW stW {} true "nobody" "pw" = (.loginPage (some invalidCredMsg), {}) := by
  constructor
  · exact ((login_generic_failure_and_success cpwW stW {} "admin" "pw" rfl).2
      "h:pw" rfl (by decide)).2.2
  · exact (login_generic_failure_and_success cpwW stW {} "nobody" "pw" rfl).1 (Or.inl rfl)

/-- Claim C2: every successful POST `/chat` appends exactly one turn to
the caller's persisted history (the count grows by exactly one), and
every failing POST `/chat` — unauthorized, model client unavailable,
model-call exception, or a Firestore write failure after the model call
— leaves the persisted history unchanged and returns an error. -/
theorem chat_turn_count_delta (authed clientOk : Bool) (username : String)
    (userDoc : Option Doc) (now : Nat) (hist : List Turn) (body : Option String)
    (gen : String → List Entry → Except String String) (dbAdd : Option String) :
    (∀ r, (chat authed clientOk username userDoc now hist body gen dbAdd).1 = .ok r →
      (chat authed clientOk username userDoc now hist body gen dbAdd).2.1.length
        = hist.length + 1) ∧
    (∀ c m, (chat authed clientOk username userDoc now hist body gen dbAdd).1 = .err c m →
      (chat authed clientOk username userDoc now hist body gen dbAdd).2.1 = hist) := by
  by_cases ha : authed
  · by_cases hc : clientOk
    · rcases hg : gen (systemInstruction (get_user_profile_data username userDoc now).1 username)
        (buildConversation 10 hist (body.getD "")) with e | ai
      · simp [chat, ha, hc, hg]
      · rcases hd : dbAdd with _ | e
        · simp [chat, ha, hc, hg, hd]
        · simp [chat, ha, hc, hg, hd]
    · simp [chat, ha, hc]
  · simp [chat, ha]

/-- Witness for C2: a concrete successful call grows an empty history to
one turn; a concrete model failure leaves it empty. -/
theorem chat_turn_count_delta_witness :
    (chat true true "alice" none 0 [] (some "hi") genOkW none).2.1.length = 0 + 1 ∧
    (chat true true "alice" none 0 [] (some "hi") genErrW none).2.1 = [] := by
  constructor
  · exact (chat_turn_count_delta true true "alice" none 0 [] (some "hi") genOkW none).1
      "yo" rfl
  · exact (chat_turn_count_delta true true "alice" none 0 [] (some "hi") genErrW none).2
      500 "boom" rfl

/-- Claim C3: the turn list `chat` sends to the model equals the spec's
description — the most recent `k` persisted turns read in descending
time order, reversed to ascending, each flattened into a user-role
entry then a model-role entry with an entry emitted only when its side
is non-empty, and the incoming user message appended as the final
entry. -/
theorem chat_conversation_matches_spec (k : Nat) (hist : List Turn) (msg : String) :
    buildConversation k hist msg = specConversation k hist msg := by
  simp [buildConversation, specConversation, historyRead, fetchRecent, flattenLoop_eq_flatten]

/-- Claim C4: for every profile document — fields present, absent, or
empty — the system instruction built by `chat` equals the space-joined,
trimmed concatenation, in fixed order, of the persona or its default,
the fixed assistant-name sentence, the goal or its default, the special
instructions, and the user-naming sentence, with empty parts omitted
from the join. -/
theorem system_instruction_matches_spec (p : Doc) (u : String) :
    systemInstruction p u = specSystemInstruction p u := by
  unfold systemInstruction specSystemInstruction systemInstructionParts
  rcases hsi : p.special_instructions with _ | s
  · simp only [truthy, hsi, Option.getD_none, Option.getD_some]
    simp only [bne_self_eq_false, Bool.false_eq_true, if_false]
    exact congrArg (fun l => (" ".intercalate l).trim)
      (filter_drop_empty [p.agent_persona.getD defaultPersona, "Your name is Alfred.",
        p.agent_goal.getD defaultGoal]
        ["The user you are interacting with is named " ++ p.user_display_name.getD u ++ "."]).symm
  · by_cases hs : s = ""
    · subst hs
      simp only [truthy, hsi, Option.getD_some, bne_self_eq_false, Bool.false_eq_true, if_false]
      exact congrArg (fun l => (" ".intercalate l).trim)
        (filter_drop_empty [p.agent_persona.getD defaultPersona, "Your name is Alfred.",
          p.agent_goal.getD defaultGoal]
          ["The user you are interacting with is named " ++ p.user_display_name.getD u ++ "."]).symm
    · simp [truthy, hsi, hs]

/-- Claim C5: every authenticated POST `/clear-history` over a stored
history of `M` turns terminates (the batched loop is a total function
decreasing by at most 50 documents per atomic batch), leaves the
caller's persisted turn count at zero, and returns success with
`deleted_count` equal to `M`. -/
theorem clear_history_zeroes_and_counts (hist : List Turn) :
    clear_history true hist = (.success hist.length, []) := by
  have h := clearLoop_spec hist.length hist 0 (Nat.le_refl _)
  simp [clear_history, h]

/-- Counterexample to claim C6 as stated: for username `"alice"` with no
stored profile document, the first (self-healing) read's returned
values differ from the next read's — the first read returns the default
dict it wrote, which includes the `created_at` server timestamp, while
the subsequent read strips `created_at` before returning.  So
read-after-self-heal does not equal the first read's result. -/
theorem profile_self_heal_not_idempotent_counterexample :
    (get_user_profile_data "alice" none 5).1
      ≠ (get_user_profile_data "alice" (get_user_profile_data "alice" none 5).2 7).1 := by
  decide

/-- Claim C6 (amended): a profile read for a username with no stored
document writes the default document (merge semantics on an absent
document) and returns the defaults; a subsequent read leaves the store
unchanged and returns the same persona, goal, special-instructions and
display-name values — but the first read's result additionally carries
the `created_at` timestamp, which subsequent reads strip. -/
theorem profile_self_heal_fields_amended (u : String) (t1 t2 : Nat) :
    (get_user_profile_data u none t1).1 = defaultProfile u t1 ∧
    (get_user_profile_data u none t1).2 = some (defaultProfile u t1) ∧
    (get_user_profile_data u (some (defaultProfile u t1)) t2).2 = some (defaultProfile u t1) ∧
    (get_user_profile_data u (some (defaultProfile u t1)) t2).1.agent_persona
      = (get_user_profile_data u none t1).1.agent_persona ∧
    (get_user_profile_data u (some (defaultProfile u t1)) t2).1.agent_goal
      = (get_user_profile_data u none t1).1.agent_goal ∧
    (get_user_profile_data u (some (defaultProfile u t1)) t2).1.special_instructions
      = (get_user_profile_data u none t1).1.special_instructions ∧
    (get_user_profile_data u (some (defaultProfile u t1)) t2).1.user_display_name
      = (get_user_profile_data u none t1).1.user_display_name ∧
    (get_user_profile_data u none t1).1.created_at = some t1 ∧
    (get_user_profile_data u (some (defaultProfile u t1)) t2).1.created_at = none := by
  simp [get_user_profile_data, defaultProfile, stripSensitive, setMerge]

/-- Counterexample to claim C7 as stated: on a three-turn history read
with `N = 2`, the `(N+1)`-th oldest turn is the newest turn, and it
does appear in the result — so "the N+1th-oldest turn never appears" is
false. -/
theorem history_window_oldest_counterexample :
    nthOldest 2 histCE = some turnC ∧ turnC ∈ historyRead 2 histCE := by decide

/-- Claim C7 (amended): every history read of size `n` — the shared
descending fetch plus reverse used by both the chat-page display read
and the model-context read — returns turns in non-decreasing timestamp
order, and (for distinct timestamps) the `(n+1)`-th MOST RECENT turn
never appears in the result. -/
theorem history_read_sorted_window_amended (n : Nat) (hist : List Turn) :
    List.Sorted tsLe (historyRead n hist) ∧
    ((hist.map Turn.timestamp).Nodup →
      ∀ t, nthNewest n hist = some t → t ∉ historyRead n hist) := by
  constructor
  · have hd : List.Sorted tsGe (sortDesc hist) := List.sorted_insertionSort tsGe hist
    have ht : List.Sorted tsGe ((sortDesc hist).take n) :=
      List.Pairwise.sublist (List.take_sublist n (sortDesc hist)) hd
    rw [historyRead, fetchRecent]
    rw [List.Sorted, List.pairwise_reverse]
    exact ht.imp (fun h => h)
  · intro hnd t ht hmem
    have hperm : List.Perm (sortDesc hist) hist := List.perm_insertionSort tsGe hist
    have hndl : (sortDesc hist).Nodup :=
      (hperm.nodup_iff).mpr (List.Nodup.of_map Turn.timestamp hnd)
    have hdisj : List.Disjoint ((sortDesc hist).take n) ((sortDesc hist).drop n) := by
      have h2 := hndl
      rw [← List.take_append_drop n (sortDesc hist)] at h2
      exact List.disjoint_of_nodup_append h2
    have htd : t ∈ (sortDesc hist).drop n := by
      have h0 : ((sortDesc hist).drop n)[0]? = some t := by
        rw [List.getElem?_drop]
        simpa [nthNewest] using ht
      exact List.getElem?_mem h0
    rw [historyRead, fetchRecent, List.mem_reverse] at hmem
    exact hdisj hmem htd

/-- Witness for C7 (amended): on the concrete three-turn history with
`n = 2`, the result is sorted and the third most recent turn (the
oldest) is excluded. -/
theorem history_read_sorted_window_amended_witness :
    List.Sorted tsLe (historyRead 2 histCE) ∧ turnA ∉ historyRead 2 histCE := by
  have h := history_read_sorted_window_amended 2 histCE
  exact ⟨h.1, h.2 (by decide) turnA (by decide)⟩

/-- Counterexample to claim C8 as stated: in iteration v4 — one of the
"later iterations" the claim covers — `/admin/create-user` performs no
admin-flag check at all, so a POST from a session without the admin
flag is served and creates a credential for an allow-listed username
(the store gains a `users` document). -/
theorem admin_gate_v4_counterexample :
    lookupUser
      (admin_create_user_v4 hpwW 3 {} true (some "change this") (some "pw") []).2
      "change this" ≠ none := by decide

/-- Claim C8 (amended): in the final iteration (v5), every request to
`/admin/create-user` from a session without the admin flag is redirected
away without creating or updating any document; when the route is
served, a creation request whose username is outside the fixed
allow-list leaves the store unchanged; and the user listing the page
returns never includes a password hash.  (In v4 the route has no admin
check; creation is gated only by the allow-list.) -/
theorem admin_gate_v5_amended (hashpw : String → String) (now : Nat) (s : Session)
    (isPost : Bool) (username password : Option String) (store : Store) :
    (s.is_admin = false →
      admin_create_user_v5 hashpw now s isPost username password store
        = (.redirectChat "You do not have permission to access this page.", store)) ∧
    ((username.getD "") ∉ ALLOWED_USERNAMES_V5 →
      (admin_create_user_v5 hashpw now s isPost username password store).2 = store) ∧
    (∀ users flash, (admin_create_user_v5 hashpw now s isPost username password store).1
        = .page users flash → ∀ d ∈ users, d.hashed_password = none) := by
  refine ⟨?_, ?_, ?_⟩
  · intro hadm
    simp [admin_create_user_v5, hadm]
  · intro hallow
    by_cases hadm : s.is_admin
    · by_cases hp : isPost
      · by_cases htu : truthy username && truthy password
        · simp [admin_create_user_v5, hadm, hp, htu, create_or_update_user, hallow]
        · simp [admin_create_user_v5, hadm, hp, htu]
      · simp [admin_create_user_v5, hadm, hp]
    · simp [admin_create_user_v5, hadm]
  · intro users flash hpage d hd
    by_cases hadm : s.is_admin
    · by_cases hp : isPost
      · by_cases htu : truthy username && truthy password
        · simp [admin_create_user_v5, hadm, hp, htu] at hpage
          rcases hpage with ⟨husers, _⟩
          subst husers
          simp at hd
          obtain ⟨p, w, hmem, hpd⟩ := hd
          rw [← hpd]
          simp [popHashed]
        · simp [admin_create_user_v5, hadm, hp, htu] at hpage
          rcases hpage with ⟨husers, _⟩
          subst husers
          simp at hd
          obtain ⟨p, w, hmem, hpd⟩ := hd
          rw [← hpd]
          simp [popHashed]
      · simp [admin_create_user_v5, hadm, hp] at hpage
        rcases hpage with ⟨husers, _⟩
        subst husers
        simp at hd
        obtain ⟨p, w, hmem, hpd⟩ := hd
        rw [← hpd]
        simp [popHashed]
    · simp [admin_create_user_v5, hadm] at hpage

/-- Witness for C8 (amended): a concrete non-admin session is redirected
with the empty store untouched, and a concrete admin session posting a
username outside the v5 allow-list leaves the store unchanged. -/
theorem admin_gate_v5_amended_witness :
    admin_create_user_v5 hpwW 3 {} true (some "add here") (some "pw") []
      = (.redirectChat "You do not have permission to access this page.", []) ∧
    (admin_create_user_v5 hpwW 3 { is_admin := true } true (some "nobody") (some "pw") []).2
      = [] := by
  constructor
  · exact (admin_gate_v5_amended hpwW 3 {} true (some "add here") (some "pw") []).1 rfl
  · exact (admin_gate_v5_amended hpwW 3 { is_admin := true } true (some "nobody")
      (some "pw") []).2.1 (by decide)

/-- Claim C9: for every authenticated POST `/transcribe_and_chat` with
an audio file, the stages run in order — speech-to-text, then the model
call with the transcript as the sole conversational turn and no prior
history, then persistence of the turn, then text-to-speech; each stage
failure short-circuits the remaining stages and returns only that
stage's error body (no partial results in the response: the first three
failure kinds also leave the history unchanged, while a text-to-speech
failure happens after the turn was persisted); and only a run in which
every stage succeeds returns the transcript, response text and audio
together. -/
theorem voice_pipeline_stages (username : String) (stt : SttOutcome) (userDoc : Option Doc)
    (now : Nat) (hist : List Turn)
    (gen : String → List Entry → Except String String) (dbAdd : Option String)
    (tts : String → Except String String) :
    (∀ e, stt = .fail e →
      transcribe_and_chat true username true stt userDoc now hist gen dbAdd tts
        = (.err 500 ("Speech-to-Text failed: " ++ e), hist, userDoc)) ∧
    (stt = .noResults →
      transcribe_and_chat true username true stt userDoc now hist gen dbAdd tts
        = (.err 400 "Could not understand audio", hist, userDoc)) ∧
    (∀ tr e, stt = .ok tr →
      gen (systemInstruction (get_user_profile_data username userDoc now).1 username)
          [⟨"user", tr⟩] = .error e →
      (transcribe_and_chat true username true stt userDoc now hist gen dbAdd tts).1
          = .err 500 ("AI chat failed: " ++ e) ∧
      (transcribe_and_chat true username true stt userDoc now hist gen dbAdd tts).2.1
          = hist) ∧
    (∀ tr ai e, stt = .ok tr →
      gen (systemInstruction (get_user_profile_data username userDoc now).1 username)
          [⟨"user", tr⟩] = .ok ai → dbAdd = some e →
      (transcribe_and_chat true username true stt userDoc now hist gen dbAdd tts).1
          = .err 500 ("AI chat failed: " ++ e) ∧
      (transcribe_and_chat true username true stt userDoc now hist gen dbAdd tts).2.1
          = hist) ∧
    (∀ tr ai e, stt = .ok tr →
      gen (systemInstruction (get_user_profile_data username userDoc now).1 username)
          [⟨"user", tr⟩] = .ok ai → dbAdd = none → tts ai = .error e →
      (transcribe_and_chat true username true stt userDoc now hist gen dbAdd tts).1
          = .err 500 ("Text-to-Speech failed: " ++ e) ∧
      (transcribe_and_chat true username true stt userDoc now hist gen dbAdd tts).2.1
          = hist ++ [⟨username, tr, ai, now⟩]) ∧
    (∀ t r a,
      (transcribe_and_chat true username true stt userDoc now hist gen dbAdd tts).1
          = .ok t r a →
      stt = .ok t ∧
      gen (systemInstruction (get_user_profile_data username userDoc now).1 username)
          [⟨"user", t⟩] = .ok r ∧
      dbAdd = none ∧ tts r = .ok a ∧
      (transcribe_and_chat true username true stt userDoc now hist gen dbAdd tts).2.1
          = hist ++ [⟨username, t, r, now⟩]) := by
  refine ⟨?_, ?_, ?_, ?_, ?_, ?_⟩
  · intro e he; subst he; simp [transcribe_and_chat]
  · intro he; subst he; simp [transcribe_and_chat]
  · intro tr e he hg; subst he
    simp [transcribe_and_chat, hg]
  · intro tr ai e he hg hd; subst he
    simp [transcribe_and_chat, hg, hd]
  · intro tr ai e he hg hd ht; subst he
    simp [transcribe_and_chat, hg, hd, ht]
  · intro t r a h
    rcases stt with e | _ | tr
    · simp [transcribe_and_chat] at h
    · simp [transcribe_and_chat] at h
    · rcases hg : gen (systemInstruction (get_user_profile_data username userDoc now).1 username)
        [⟨"user", tr⟩] with e | ai
      · simp [transcribe_and_chat, hg] at h
      · rcases hd : dbAdd with _ | e
        · rcases ht : tts ai with e | audio
          · simp [transcribe_and_chat, hg, hd, ht] at h
          · simp [transcribe_and_chat, hg, hd, ht] at h
            obtain ⟨h1, h2, h3⟩ := h
            subst h1; subst h2; subst h3
            simp [transcribe_and_chat, hg, hd, ht]
        · simp [transcribe_and_chat, hg, hd] at h

/-- Witness for C9: a concrete speech-to-text failure yields only that
stage's error with the history untouched, and a concrete fully
successful run persists its single turn. -/
theorem voice_pipeline_stages_witness :
    transcribe_and_chat true "alice" true (.fail "x") none 0 [] genOkW none ttsOkW
      = (.err 500 ("Speech-to-Text failed: " ++ "x"), [], none) ∧
    (transcribe_and_chat true "alice" true (.ok "hi") none 0 [] genOkW none ttsOkW).2.1
      = [⟨"alice", "hi", "yo", 0⟩] := by
  constructor
  · exact (voice_pipeline_stages "alice" (.fail "x") none 0 [] genOkW none ttsOkW).1 "x" rfl
  · have h := ((voice_pipeline_stages "alice" (.ok "hi") none 0 [] genOkW none ttsOkW).2.2.2.2.2)
      "hi" "yo" "AU" rfl
    simpa using h.2.2.2.2

/-- Claim C10: a POST `/chat` whose JSON body lacks a `"message"` field
is not rejected — it behaves exactly as a request with the empty-string
message: the conversation's final model entry is the empty user-role
entry, a successful run persists a turn with empty user text, and such
a turn's empty user side is skipped when history is later flattened
into model context. -/
theorem chat_missing_message_defaults (authed clientOk : Bool) (username : String)
    (userDoc : Option Doc) (now : Nat) (hist : List Turn)
    (gen : String → List Entry → Except String String) (dbAdd : Option String) :
    chat authed clientOk username userDoc now hist none gen dbAdd
      = chat authed clientOk username userDoc now hist (some "") gen dbAdd ∧
    (buildConversation 10 hist "").getLast? = some ⟨"user", ""⟩ ∧
    (∀ ai, gen (systemInstruction (get_user_profile_data username userDoc now).1 username)
        (buildConversation 10 hist "") = .ok ai → dbAdd = none →
      (chat true true username userDoc now hist none gen dbAdd).1 = .ok ai ∧
      (chat true true username userDoc now hist none gen dbAdd).2.1
        = hist ++ [⟨username, "", ai, now⟩]) ∧
    (∀ u ai ts, turnEntries ⟨u, "", ai, ts⟩
      = if ai != "" then [⟨"model", ai⟩] else []) := by
  refine ⟨rfl, ?_, ?_, ?_⟩
  · simp [buildConversation]
  · intro ai hg hd
    constructor <;> simp [chat, hg, hd]
  · intro u ai ts
    simp [turnEntries]

/-- Witness for C10: a concrete POST with no message field succeeds and
persists a turn whose user text is empty. -/
theorem chat_missing_message_defaults_witness :
    (chat true true "alice" none 0 [] none genOkW none).2.1 = [⟨"alice", "", "yo", 0⟩] := by
  have h := ((chat_missing_message_defaults true true "alice" none 0 [] genOkW none).2.2.1
    "yo" rfl rfl).2
  simpa using h

end Alfred
